import Mathlib

/-!
Verification development for the sveltebase reactive PocketBase state
library.  The repository holds a synchronization core
(`PocketBaseState`, src/lib/utils/pb-state.svelte.ts), a document
adapter (`RecordState`), two divergent collection adapters
(`CollectionState` in src/lib/data/collection.svelte.ts, which refetches
the current page on every change, and the patch-in-place variant), and
an auth adapter (`CurrentUserState`).  Remote calls are modelled by
passing their outcome as an explicit parameter; JavaScript `this.data`
cells holding `undefined | null | value` are modelled by the `Snap`
type, with the JavaScript truthiness the guards in the source rely on.
-/

namespace Sveltebase

/-- A JavaScript data cell value: `undefined` (never resolved), `null`
(resolved empty), or a concrete value. -/
inductive Snap (α : Type) where
  | undef
  | nil
  | val (a : α)
deriving Repr, DecidableEq

/-- JavaScript truthiness of a `Snap` as used by guards such as
`if (!this.data)`: `undefined` and `null` are falsy; objects and arrays
(even empty arrays) are truthy. -/
def Snap.truthy {α : Type} : Snap α → Bool
  | .val _ => true
  | _ => false

/-- Errors are modelled by their message. -/
abbrev Err := String

/-- A PocketBase record: the five reserved fields destructured away by
`RecordState.save` (`id`, `created`, `updated`, `collectionId`,
`collectionName`) plus the remaining user fields, kept as an ordered
key-value list. -/
structure Rec where
  id : String
  created : String
  updated : String
  collectionId : String
  collectionName : String
  fields : List (String × String)
deriving Repr, DecidableEq

/-- JavaScript computed-key object spread `{ ...obj, [k]: v }` on the user
fields: replaces the value of an existing key in place, else appends. -/
def setKey : List (String × String) → String → String → List (String × String)
  | [], k, v => [(k, v)]
  | (k0, v0) :: rest, k, v =>
      if k0 = k then (k, v) :: rest else (k0, v0) :: setKey rest k v

/-- A remote `update(id, payload)` call issued to the store. -/
structure UpdateCall where
  id : String
  payload : List (String × String)
deriving Repr, DecidableEq

/-- State of a `RecordState` document adapter (src/routes/+page.svelte,
second embedded module): configuration fixed at construction plus the
mutable snapshot / loading / error triple owned by the core. -/
structure RecordState where
  listen : Bool
  autosaveEnabled : Bool
  recordId : Option String
  filterQuery : Option String
  data : Snap Rec
  loading : Bool
  error : Option Err
deriving Repr, DecidableEq

/-- Outcome of the remote update issued by `RecordState.save`. -/
inductive SaveOutcome where
  | ok (record : Rec)
  | fail (e : Err)
deriving Repr, DecidableEq

instance {ε α : Type} [DecidableEq ε] [DecidableEq α] :
    DecidableEq (Except ε α) := fun x y =>
  match x, y with
  | .ok a, .ok b =>
      if h : a = b then isTrue (congrArg Except.ok h)
      else isFalse (fun hc => h (Except.ok.inj hc))
  | .error a, .error b =>
      if h : a = b then isTrue (congrArg Except.error h)
      else isFalse (fun hc => h (Except.error.inj hc))
  | .ok _, .error _ => isFalse (fun hc => Except.noConfusion hc)
  | .error _, .ok _ => isFalse (fun hc => Except.noConfusion hc)

/-- Result of running a `RecordState` operation: the post state, the
value returned to the caller (`Except.error` meaning a thrown
exception), the remote update calls issued, and the number of
background autosaves the operation scheduled through the data setter. -/
structure SaveRun where
  state : RecordState
  result : Except Err (Option Rec)
  calls : List UpdateCall
  scheduled : Nat
deriving Repr, DecidableEq

/-- The overridden `data` setter of `RecordState`: stores the value and,
when autosave is enabled and the value is truthy, schedules one
background `save()` (returned as the second component). -/
def data_setter (s : RecordState) (v : Snap Rec) : RecordState × Nat :=
  let s1 := { s with data := v }
  if s.autosaveEnabled && v.truthy then (s1, 1) else (s1, 0)

/-- `RecordState.save()`: returns `null` without touching any state when
the snapshot is falsy; otherwise sets loading, clears error, issues one
update with the five reserved fields destructured away, and on success
stores the server record through the data setter when `listen` is off.
A failure is recorded in `error` and re-thrown; `finally` clears
loading. -/
def save (s : RecordState) (out : SaveOutcome) : SaveRun :=
  match s.data with
  | .val r =>
      let s1 := { s with loading := true, error := none }
      match out with
      | .ok record =>
          let step :=
            if s1.listen then (s1, 0) else data_setter s1 (.val record)
          { state := { step.1 with loading := false },
            result := .ok (some record),
            calls := [⟨r.id, r.fields⟩],
            scheduled := step.2 }
      | .fail e =>
          { state := { s1 with loading := false, error := some e },
            result := .error e,
            calls := [⟨r.id, r.fields⟩],
            scheduled := 0 }
  | _ => { state := s, result := .ok none, calls := [], scheduled := 0 }

/-- The `console.error` handler attached by the autosave hook: it only
logs, so the rejection it receives propagates no further. -/
def consoleError (_e : Err) : Option Err := none

/-- Completion of the background save scheduled by the data setter
(`this.save().catch(err => console.error(...))`): the save runs on the
state left by the assignment, and any rejection is consumed by the
attached catch handler, never reaching the assigner. -/
def autosave_complete (s : RecordState) (out : SaveOutcome) :
    RecordState × Option Err :=
  let run := save s out
  match run.result with
  | .ok _ => (run.state, none)
  | .error e => (run.state, consoleError e)

/-- `RecordState.updateField(field, value)`: returns `null` when the
snapshot is falsy; otherwise assigns the spread-merged record through
the data setter, then either explicitly saves (autosave disabled) or
just returns the updated local value (autosave enabled, persistence left
to the scheduled background save). -/
def updateField (s : RecordState) (k v : String) (out : SaveOutcome) :
    SaveRun :=
  match s.data with
  | .val r =>
      let merged : Rec := { r with fields := setKey r.fields k v }
      let step := data_setter s (.val merged)
      if s.autosaveEnabled then
        { state := step.1, result := .ok (some merged), calls := [],
          scheduled := step.2 }
      else
        let run := save step.1 out
        { run with scheduled := run.scheduled + step.2 }
  | _ => { state := s, result := .ok none, calls := [], scheduled := 0 }

/-- `RecordState.fetch_data()`: sets loading and clears error, then
retrieves by id when one is configured, else takes the first item of a
one-element filtered list query when a filter is configured, else
resolves to `null`.  Every `this.data` assignment goes through the
overridden setter (second component counts scheduled autosaves).  On
failure the error is recorded and the snapshot is set to `null`;
`finally` clears loading. -/
def rec_fetch_data (s0 : RecordState) (getOne : Except Err Rec)
    (getList : Except Err (List Rec)) : RecordState × Nat :=
  let s := { s0 with loading := true, error := none }
  match s0.recordId with
  | some _ =>
      match getOne with
      | .ok r =>
          let step := data_setter s (.val r)
          ({ step.1 with loading := false }, step.2)
      | .error e =>
          let step := data_setter { s with error := some e } .nil
          ({ step.1 with loading := false }, step.2)
  | none =>
      match s0.filterQuery with
      | some _ =>
          match getList with
          | .ok [] =>
              let step := data_setter s .nil
              ({ step.1 with loading := false }, step.2)
          | .ok (r :: _) =>
              let step := data_setter s (.val r)
              ({ step.1 with loading := false }, step.2)
          | .error e =>
              let step := data_setter { s with error := some e } .nil
              ({ step.1 with loading := false }, step.2)
      | none =>
          let step := data_setter s .nil
          ({ step.1 with loading := false }, step.2)

/-- State of a `CollectionState` collection adapter: the snapshot /
loading / error triple plus the pagination counters `page`,
`totalPages`, `totalItems`. -/
structure CollState where
  listen : Bool
  data : Snap (List Rec)
  loading : Bool
  error : Option Err
  page : Int
  totalPages : Int
  totalItems : Int
deriving Repr, DecidableEq

/-- Outcome of the paginated `getList` call issued by the collection
`fetch_data`. -/
inductive FetchOutcome where
  | ok (items : List Rec) (totalPages totalItems : Int)
  | fail (e : Err)
deriving Repr, DecidableEq

/-- `CollectionState.fetch_data()` (identical in both collection
variants): sets loading and clears error; on success replaces the
snapshot with the returned items and recomputes both totals; on failure
records the error and resets the snapshot to the empty array, leaving
page and totals untouched; `finally` clears loading. -/
def fetch_data (s : CollState) (out : FetchOutcome) : CollState :=
  let s1 := { s with loading := true, error := none }
  match out with
  | .ok items tp ti =>
      { s1 with data := .val items, totalPages := tp, totalItems := ti,
                loading := false }
  | .fail e =>
      { s1 with error := some e, data := .val [], loading := false }

/-- Action tag of a realtime subscription event. -/
inductive Action where
  | create
  | update
  | delete
deriving Repr, DecidableEq

/-- A realtime subscription event: action tag plus affected record. -/
structure Event where
  action : Action
  record : Rec
deriving Repr, DecidableEq

/-- The list currently held by a collection snapshot; falsy snapshots
read as the empty array, mirroring the handler guard
`if (!this.data) this.data = []`. -/
def currentList (d : Snap (List Rec)) : List Rec :=
  match d with
  | .val l => l
  | _ => []

/-- `CollectionState.nextPage()`: only when the current page is strictly
below `totalPages`, increments the page and performs exactly one fetch
(second component counts fetches). -/
def nextPage (s : CollState) (fo : FetchOutcome) : CollState × Nat :=
  if s.page < s.totalPages then
    (fetch_data { s with page := s.page + 1 } fo, 1)
  else (s, 0)

/-- `CollectionState.prevPage()`: only when the current page is strictly
above 1, decrements the page and performs exactly one fetch. -/
def prevPage (s : CollState) (fo : FetchOutcome) : CollState × Nat :=
  if 1 < s.page then
    (fetch_data { s with page := s.page - 1 } fo, 1)
  else (s, 0)

/-- `CollectionState.goToPage(page)`: only when the requested page lies
in `[1, totalPages]`, jumps to it and performs exactly one fetch. -/
def goToPage (s : CollState) (p : Int) (fo : FetchOutcome) :
    CollState × Nat :=
  if 1 ≤ p ∧ p ≤ s.totalPages then
    (fetch_data { s with page := p } fo, 1)
  else (s, 0)

/-- JavaScript object spread `{ ...base, ...upd }` on user fields:
values of `upd` overwrite those of `base` in place, new keys of `upd`
are appended in order. -/
def mergeFields (base upd : List (String × String)) :
    List (String × String) :=
  (base.map fun kv => (kv.1, ((upd.lookup kv.1).getD kv.2)))
    ++ upd.filter fun kv => (base.lookup kv.1).isNone

/-- JavaScript record spread `{ ...item, ...record }` where `record` is
a full server record: every reserved field comes from `record`, user
fields are spread-merged. -/
def mergeRec (item record : Rec) : Rec :=
  { record with fields := mergeFields item.fields record.fields }

namespace Patch

/-- The realtime event handler of the patch-in-place collection variant:
create appends the record at the end, update replaces every item whose
id matches, delete filters the matching id out. -/
def applyEvent (xs : List Rec) (e : Event) : List Rec :=
  match e.action with
  | .create => xs ++ [e.record]
  | .update => xs.map fun item => if item.id = e.record.id then e.record else item
  | .delete => xs.filter fun item => item.id != e.record.id

/-- The subscription callback of the patch-in-place variant at state
level: a falsy snapshot is first replaced by the empty array, then the
event is patched in; nothing else of the state is touched and no fetch
is issued (second component counts fetches). -/
def handleEvent (s : CollState) (e : Event) : CollState × Nat :=
  ({ s with data := .val (applyEvent (currentList s.data) e) }, 0)

/-- `CollectionState.add(data)` of the patch-in-place variant: sets
loading, clears error, issues the create; on success appends the server
record locally only when not listening and the snapshot is truthy; a
failure is recorded and re-thrown.  No fetch is ever issued (third
component). -/
def add (s : CollState) (createOut : Except Err Rec) :
    CollState × Except Err Rec × Nat :=
  let s1 := { s with loading := true, error := none }
  match createOut with
  | .ok record =>
      let s2 :=
        if !s1.listen && s1.data.truthy then
          { s1 with data := .val (currentList s1.data ++ [record]) }
        else s1
      ({ s2 with loading := false }, .ok record, 0)
  | .error e =>
      ({ s1 with error := some e, loading := false }, .error e, 0)

/-- `CollectionState.update(id, data)` of the patch-in-place variant:
issues the update; on success spread-merges the server record into the
matching local item only when not listening and the snapshot is truthy;
a failure is recorded and re-thrown. -/
def update (s : CollState) (id : String) (updOut : Except Err Rec) :
    CollState × Except Err Rec × Nat :=
  let s1 := { s with loading := true, error := none }
  match updOut with
  | .ok record =>
      let s2 :=
        if !s1.listen && s1.data.truthy then
          { s1 with data := .val ((currentList s1.data).map fun item =>
              if item.id = id then mergeRec item record else item) }
        else s1
      ({ s2 with loading := false }, .ok record, 0)
  | .error e =>
      ({ s1 with error := some e, loading := false }, .error e, 0)

/-- `CollectionState.remove(id)` of the patch-in-place variant: issues
the delete; on success filters the id out locally only when not
listening and the snapshot is truthy; a failure is recorded and
re-thrown. -/
def remove (s : CollState) (id : String) (delOut : Except Err Unit) :
    CollState × Except Err Bool × Nat :=
  let s1 := { s with loading := true, error := none }
  match delOut with
  | .ok _ =>
      let s2 :=
        if !s1.listen && s1.data.truthy then
          { s1 with data := .val ((currentList s1.data).filter fun item =>
              item.id != id) }
        else s1
      ({ s2 with loading := false }, .ok true, 0)
  | .error e =>
      ({ s1 with error := some e, loading := false }, .error e, 0)

end Patch

namespace Refetch

/-- The realtime event handler of src/lib/data/collection.svelte.ts: the
callback ignores the event payload entirely and refetches the current
page (`await this.fetch_data()`), one fetch per event. -/
def handleEvent (s : CollState) (_e : Event) (fo : FetchOutcome) :
    CollState × Nat :=
  (fetch_data s fo, 1)

/-- `CollectionState.add(data)` of src/lib/data/collection.svelte.ts:
issues the create and, when not listening, refetches the whole current
page instead of appending locally; a failure is recorded and
re-thrown. -/
def add (s : CollState) (createOut : Except Err Rec) (fo : FetchOutcome) :
    CollState × Except Err Rec × Nat :=
  let s1 := { s with loading := true, error := none }
  match createOut with
  | .ok record =>
      if s1.listen then
        ({ s1 with loading := false }, .ok record, 0)
      else
        ({ fetch_data s1 fo with loading := false }, .ok record, 1)
  | .error e =>
      ({ s1 with error := some e, loading := false }, .error e, 0)

/-- `CollectionState.update(id, data)` of
src/lib/data/collection.svelte.ts: issues the update and, when not
listening, refetches the current page; a failure is recorded and
re-thrown. -/
def update (s : CollState) (_id : String) (updOut : Except Err Rec)
    (fo : FetchOutcome) : CollState × Except Err Rec × Nat :=
  let s1 := { s with loading := true, error := none }
  match updOut with
  | .ok record =>
      if s1.listen then
        ({ s1 with loading := false }, .ok record, 0)
      else
        ({ fetch_data s1 fo with loading := false }, .ok record, 1)
  | .error e =>
      ({ s1 with error := some e, loading := false }, .error e, 0)

/-- `CollectionState.remove(id)` of src/lib/data/collection.svelte.ts:
issues the delete and, when not listening, refetches the current page; a
failure is recorded and re-thrown. -/
def remove (s : CollState) (_id : String) (delOut : Except Err Unit)
    (fo : FetchOutcome) : CollState × Except Err Bool × Nat :=
  let s1 := { s with loading := true, error := none }
  match delOut with
  | .ok _ =>
      if s1.listen then
        ({ s1 with loading := false }, .ok true, 0)
      else
        ({ fetch_data s1 fo with loading := false }, .ok true, 1)
  | .error e =>
      ({ s1 with error := some e, loading := false }, .error e, 0)

end Refetch

/-- State of the `CurrentUserState` auth adapter: the identity cell and
the loading flag.  The class declares no error field. -/
structure UserState where
  user : Snap String
  loading : Bool
deriving Repr, DecidableEq

/-- `CurrentUserState.login(email, password)`: sets loading, attempts
password authentication, and `finally` clears loading.  The catch block
only re-throws (second component); nothing about the failure is stored
in the adapter. -/
def login (s : UserState) (authOut : Except Err Unit) :
    UserState × Option Err :=
  let s1 := { s with loading := true }
  match authOut with
  | .ok _ => ({ s1 with loading := false }, none)
  | .error e => ({ s1 with loading := false }, some e)

/-- Lifecycle state of the subscription machinery shared by
`PocketBaseState.start` / `stop` and `subscribe_to_data`: whether the
adapter was constructed with `listen`, whether the `unsubscribe` handle
is set, how many `subscribe_to_data` initial fetches are still in
flight (each has passed the handle guard), and how many live channels
are currently open. -/
structure SubState where
  listen : Bool
  handle : Bool
  pendingSubs : Nat
  active : Nat
deriving Repr, DecidableEq

/-- An atomic step of the lifecycle: a `start()` call (which runs
`subscribe_to_data` up to its first suspension point when listening), the
completion of one pending initial fetch (whose continuation opens the
live channel and sets the handle, without re-checking the guard), or a
`stop()` call. -/
inductive SubStep where
  | startCall
  | fetchDone
  | stopCall
deriving Repr, DecidableEq

/-- Small-step semantics of the lifecycle.  `startCall` with `listen`
returns immediately when the handle is already set, else registers one
pending initial fetch; without `listen` it only fetches (no subscription
effect).  `fetchDone` runs the `.then` continuation of one pending
subscribe: it opens a live channel and stores the handle.  `stopCall`
with a handle present runs the stored teardown, which unsubscribes the
whole collection topic (closing every channel opened on it) and clears
the handle; without a handle it is a no-op. -/
def subStep (s : SubState) : SubStep → SubState
  | .startCall =>
      if s.listen then
        if s.handle then s
        else { s with pendingSubs := s.pendingSubs + 1 }
      else s
  | .fetchDone =>
      match s.pendingSubs with
      | 0 => s
      | n + 1 => { s with pendingSubs := n, active := s.active + 1,
                          handle := true }
  | .stopCall =>
      if s.handle then { s with handle := false, active := 0 } else s

/-- Run a sequence of lifecycle steps. -/
def runSub (s : SubState) (steps : List SubStep) : SubState :=
  steps.foldl subStep s

/-- A caller-level operation when invocations do not overlap: a
`start()` whose initial fetch (when one was registered) completes before
anything else happens, or a `stop()`. -/
inductive SeqOp where
  | startOp
  | stopOp
deriving Repr, DecidableEq

/-- Sequential (non-overlapping) semantics, derived from the small
steps: a start immediately followed by its own fetch completion when it
registered one. -/
def seqStep (s : SubState) : SeqOp → SubState
  | .startOp =>
      let s1 := subStep s .startCall
      if s.pendingSubs < s1.pendingSubs then subStep s1 .fetchDone else s1
  | .stopOp => subStep s .stopCall

/-- Run a sequence of non-overlapping start/stop operations. -/
def runSeq (s : SubState) (ops : List SeqOp) : SubState :=
  ops.foldl seqStep s

/-- Invariant of sequential lifecycles: no fetch pending, at most one
channel open, and no channel open unless the handle is set. -/
def SeqInv (s : SubState) : Prop :=
  s.pendingSubs = 0 ∧ s.active ≤ 1 ∧ (s.handle = false → s.active = 0)

instance (s : SubState) : Decidable (SeqInv s) := by
  unfold SeqInv; infer_instance

/-! Sample records used by concrete witnesses and counterexamples. -/

/-- Sample record with identifier a. -/
def rA : Rec := ⟨"a", "t0", "t0", "c0", "tasks", [("title", "one")]⟩

/-- Sample record with identifier b. -/
def rB : Rec := ⟨"b", "t1", "t1", "c0", "tasks", [("title", "two")]⟩

/-- Sample record with identifier c. -/
def rC : Rec := ⟨"c", "t2", "t2", "c0", "tasks", [("title", "three")]⟩

/-! Helper lemmas about the patch-in-place event handler. -/

theorem applyEvent_update_idem (xs : List Rec) (r : Rec) :
    Patch.applyEvent (Patch.applyEvent xs ⟨.update, r⟩) ⟨.update, r⟩
      = Patch.applyEvent xs ⟨.update, r⟩ := by
  have hf : ((fun item : Rec => if item.id = r.id then r else item) ∘
      (fun item : Rec => if item.id = r.id then r else item)) =
      (fun item : Rec => if item.id = r.id then r else item) := by
    funext x
    by_cases hx : x.id = r.id <;> simp [hx]
  simp [Patch.applyEvent, List.map_map, hf]

theorem applyEvent_delete_idem (xs : List Rec) (r : Rec) :
    Patch.applyEvent (Patch.applyEvent xs ⟨.delete, r⟩) ⟨.delete, r⟩
      = Patch.applyEvent xs ⟨.delete, r⟩ := by
  simp only [Patch.applyEvent]
  apply List.filter_eq_self.mpr
  intro a ha
  exact (List.mem_filter.mp ha).2

theorem applyEvent_update_unmatched (xs : List Rec) (r : Rec) :
    (∀ x ∈ xs, x.id ≠ r.id) → Patch.applyEvent xs ⟨.update, r⟩ = xs := by
  induction xs with
  | nil => intro _; rfl
  | cons x xs ih =>
      intro h
      have hx : x.id ≠ r.id := h x (List.mem_cons_self x xs)
      have ht : ∀ y ∈ xs, y.id ≠ r.id :=
        fun y hy => h y (List.mem_cons_of_mem x hy)
      simp only [Patch.applyEvent] at ih ⊢
      simp only [List.map_cons, if_neg hx]
      rw [ih ht]

theorem applyEvent_delete_unmatched (xs : List Rec) (r : Rec)
    (h : ∀ x ∈ xs, x.id ≠ r.id) :
    Patch.applyEvent xs ⟨.delete, r⟩ = xs := by
  simp only [Patch.applyEvent]
  apply List.filter_eq_self.mpr
  intro a ha
  simpa using h a ha

/--
C9: duplicate delivery of the same update or delete realtime event to
the patch-in-place collection handler is idempotent: applying the event
twice yields exactly the state obtained by applying it once.
-/
theorem c9_duplicate_event_idempotent :
    ∀ (s : CollState) (r : Rec),
      Patch.handleEvent (Patch.handleEvent s ⟨.update, r⟩).1 ⟨.update, r⟩
        = Patch.handleEvent s ⟨.update, r⟩ ∧
      Patch.handleEvent (Patch.handleEvent s ⟨.delete, r⟩).1 ⟨.delete, r⟩
        = Patch.handleEvent s ⟨.delete, r⟩ := by
  intro s r
  constructor
  · simp [Patch.handleEvent, currentList, applyEvent_update_idem]
  · simp [Patch.handleEvent, currentList, applyEvent_delete_idem]

/--
C10: `RecordState.updateField` on an adapter whose snapshot is absent
(undefined or null, hence falsy) returns none, issues no remote call,
schedules no autosave, and leaves the whole state - snapshot, loading
flag and error state - unchanged.
-/
theorem c10_updateField_absent :
    ∀ (s : RecordState) (k v : String) (out : SaveOutcome),
      s.data.truthy = false →
      updateField s k v out
        = { state := s, result := .ok none, calls := [], scheduled := 0 } := by
  intro s k v out h
  cases hd : s.data with
  | undef => simp [updateField, hd]
  | nil => simp [updateField, hd]
  | val r => rw [hd] at h; simp [Snap.truthy] at h

/-- Witness for C10 at a concrete absent-snapshot adapter. -/
theorem c10_witness :
    Snap.truthy (Snap.nil : Snap Rec) = false ∧
    updateField
        { listen := false, autosaveEnabled := true, recordId := some "r1",
          filterQuery := none, data := .nil, loading := false, error := none }
        "title" "B" (.ok rA)
      = { state := { listen := false, autosaveEnabled := true,
                     recordId := some "r1", filterQuery := none,
                     data := .nil, loading := false, error := none },
          result := .ok none, calls := [], scheduled := 0 } :=
  ⟨rfl, c10_updateField_absent _ "title" "B" (.ok rA) rfl⟩

/--
C8: every navigation operation of the collection adapter clamps the
page to [1, totalPages]: a move outside that range returns the state
unchanged (page, snapshot, totals) with no fetch issued, and an
accepted move sets the page counter to the target (which stays inside
the bounds when the old page was inside them) and performs exactly one
fetch.
-/
theorem c8_pagination_clamped :
    ∀ (s : CollState) (p : Int) (fo : FetchOutcome),
      (¬ (1 ≤ p ∧ p ≤ s.totalPages) → goToPage s p fo = (s, 0)) ∧
      (1 ≤ p → p ≤ s.totalPages →
        (goToPage s p fo).1.page = p ∧ (goToPage s p fo).2 = 1) ∧
      (s.totalPages ≤ s.page → nextPage s fo = (s, 0)) ∧
      (s.page < s.totalPages →
        (nextPage s fo).1.page = s.page + 1 ∧ (nextPage s fo).2 = 1 ∧
        (1 ≤ s.page → 1 ≤ s.page + 1 ∧ s.page + 1 ≤ s.totalPages)) ∧
      (s.page ≤ 1 → prevPage s fo = (s, 0)) ∧
      (1 < s.page →
        (prevPage s fo).1.page = s.page - 1 ∧ (prevPage s fo).2 = 1 ∧
        (s.page ≤ s.totalPages → 1 ≤ s.page - 1 ∧ s.page - 1 ≤ s.totalPages)) := by
  intro s p fo
  refine ⟨?_, ?_, ?_, ?_, ?_, ?_⟩
  · intro h
    simp [goToPage, h]
  · intro h1 h2
    cases fo <;> simp [goToPage, fetch_data, h1, h2]
  · intro h
    simp [nextPage, not_lt.mpr h]
  · intro h
    cases fo <;>
      refine ⟨by simp [nextPage, fetch_data, h], by simp [nextPage, h],
        fun h1 => ⟨by omega, by omega⟩⟩
  · intro h
    simp [prevPage, not_lt.mpr h]
  · intro h
    cases fo <;>
      refine ⟨by simp [prevPage, fetch_data, h], by simp [prevPage, h],
        fun h1 => ⟨by omega, by omega⟩⟩

/-- Witness for C8 at a concrete collection state: an out-of-range jump
is a no-op and an in-range next advances by one with a single fetch. -/
theorem c8_witness :
    (¬ ((1 : Int) ≤ 7 ∧ (7 : Int) ≤ 3) →
      goToPage ⟨false, .val [rA], false, none, 2, 3, 9⟩ 7 (.ok [rB] 3 9)
        = (⟨false, .val [rA], false, none, 2, 3, 9⟩, 0)) ∧
    ((2 : Int) < 3 →
      (nextPage ⟨false, .val [rA], false, none, 2, 3, 9⟩ (.ok [rB] 3 9)).1.page = 3 ∧
      (nextPage ⟨false, .val [rA], false, none, 2, 3, 9⟩ (.ok [rB] 3 9)).2 = 1 ∧
      ((1 : Int) ≤ 2 → 1 ≤ (2 : Int) + 1 ∧ (2 : Int) + 1 ≤ 3)) :=
  ⟨(c8_pagination_clamped ⟨false, .val [rA], false, none, 2, 3, 9⟩ 7 (.ok [rB] 3 9)).1,
   (c8_pagination_clamped ⟨false, .val [rA], false, none, 2, 3, 9⟩ 7 (.ok [rB] 3 9)).2.2.2.1⟩

/--
C1 counterexample: the claim says a failing fetch on the document
adapter leaves the previous snapshot in place; on a concrete adapter
holding record a whose id-fetch fails, `RecordState.fetch_data` resets
the snapshot to null instead of retaining the previous value.
-/
theorem c1_counterexample :
    (rec_fetch_data
        { listen := false, autosaveEnabled := false, recordId := some "r1",
          filterQuery := none, data := .val rA, loading := false, error := none }
        (.error "boom") (.ok [])).1.data = Snap.nil ∧
    (rec_fetch_data
        { listen := false, autosaveEnabled := false, recordId := some "r1",
          filterQuery := none, data := .val rA, loading := false, error := none }
        (.error "boom") (.ok [])).1.error = some "boom" ∧
    Snap.nil ≠ Snap.val rA :=
  ⟨rfl, rfl, by decide⟩

/--
C1 (amended): every failing fetch sets error state; on the collection
adapter the snapshot becomes the empty sequence with page and both
pagination totals preserved, while on the document adapter the snapshot
is reset to null (the previous snapshot is not retained).
-/
theorem c1_fetch_failure :
    ∀ (s : CollState) (t : RecordState) (e : Err) (g1 : Except Err Rec)
      (g2 : Except Err (List Rec)),
      ((fetch_data s (.fail e)).data = .val [] ∧
       (fetch_data s (.fail e)).error = some e ∧
       (fetch_data s (.fail e)).page = s.page ∧
       (fetch_data s (.fail e)).totalPages = s.totalPages ∧
       (fetch_data s (.fail e)).totalItems = s.totalItems) ∧
      (t.recordId.isSome = true →
        (rec_fetch_data t (.error e) g2).1.data = Snap.nil ∧
        (rec_fetch_data t (.error e) g2).1.error = some e) ∧
      (t.recordId = none → t.filterQuery.isSome = true →
        (rec_fetch_data t g1 (.error e)).1.data = Snap.nil ∧
        (rec_fetch_data t g1 (.error e)).1.error = some e) := by
  intro s t e g1 g2
  refine ⟨by simp [fetch_data], ?_, ?_⟩
  · intro h
    cases hid : t.recordId with
    | none => rw [hid] at h; simp at h
    | some i => simp [rec_fetch_data, hid, data_setter, Snap.truthy]
  · intro h0 h1
    cases hf : t.filterQuery with
    | none => rw [hf] at h1; simp at h1
    | some f => simp [rec_fetch_data, h0, hf, data_setter, Snap.truthy]

/-- Witness for C1 at concrete adapters: a failing collection fetch and
failing document fetches along both the id path and the filter path. -/
theorem c1_witness :
    ((fetch_data ⟨false, .val [rA], false, none, 2, 3, 9⟩ (.fail "down")).data
        = .val [] ∧
     (fetch_data ⟨false, .val [rA], false, none, 2, 3, 9⟩ (.fail "down")).error
        = some "down" ∧
     (fetch_data ⟨false, .val [rA], false, none, 2, 3, 9⟩ (.fail "down")).page = 2 ∧
     (fetch_data ⟨false, .val [rA], false, none, 2, 3, 9⟩ (.fail "down")).totalPages = 3 ∧
     (fetch_data ⟨false, .val [rA], false, none, 2, 3, 9⟩ (.fail "down")).totalItems = 9) ∧
    ((rec_fetch_data
        { listen := false, autosaveEnabled := false, recordId := some "r1",
          filterQuery := none, data := .val rA, loading := false, error := none }
        (.error "down") (.ok [])).1.data = Snap.nil ∧
     (rec_fetch_data
        { listen := false, autosaveEnabled := false, recordId := some "r1",
          filterQuery := none, data := .val rA, loading := false, error := none }
        (.error "down") (.ok [])).1.error = some "down") ∧
    ((rec_fetch_data
        { listen := false, autosaveEnabled := false, recordId := none,
          filterQuery := some "q", data := .val rA, loading := false, error := none }
        (.ok rB) (.error "down")).1.data = Snap.nil ∧
     (rec_fetch_data
        { listen := false, autosaveEnabled := false, recordId := none,
          filterQuery := some "q", data := .val rA, loading := false, error := none }
        (.ok rB) (.error "down")).1.error = some "down") :=
  ⟨(c1_fetch_failure ⟨false, .val [rA], false, none, 2, 3, 9⟩
      { listen := false, autosaveEnabled := false, recordId := some "r1",
        filterQuery := none, data := .val rA, loading := false, error := none }
      "down" (.ok rB) (.ok [])).1,
   (c1_fetch_failure ⟨false, .val [rA], false, none, 2, 3, 9⟩
      { listen := false, autosaveEnabled := false, recordId := some "r1",
        filterQuery := none, data := .val rA, loading := false, error := none }
      "down" (.ok rB) (.ok [])).2.1 rfl,
   (c1_fetch_failure ⟨false, .val [rA], false, none, 2, 3, 9⟩
      { listen := false, autosaveEnabled := false, recordId := none,
        filterQuery := some "q", data := .val rA, loading := false, error := none }
      "down" (.ok rB) (.ok [])).2.2 rfl rfl⟩

/--
C3 counterexample: the claim says no incoming live event refetches the
snapshot; on the collection adapter of src/lib/data/collection.svelte.ts
a concrete create event triggers one fetch and the snapshot becomes the
refetched page, not the in-place patch (the appended list).
-/
theorem c3_counterexample :
    (Refetch.handleEvent ⟨true, .val [rA], false, none, 1, 1, 1⟩
        ⟨.create, rB⟩ (.ok [rC] 1 1)).2 = 1 ∧
    (Refetch.handleEvent ⟨true, .val [rA], false, none, 1, 1, 1⟩
        ⟨.create, rB⟩ (.ok [rC] 1 1)).1.data = Snap.val [rC] ∧
    Snap.val [rC] ≠ Snap.val [rA, rB] :=
  ⟨rfl, rfl, by decide⟩

/--
C3 (amended): on the patch-in-place collection adapter, reconciliation
patches the snapshot in place - create appends at the end, update
replaces items with the matching identifier positionally (unmatched
updates are ignored), delete removes exactly the matching items
preserving the order of the rest (unmatched deletes are ignored) - and
no event touches page, totals, loading or error, nor issues a fetch; the
collection adapter of src/lib/data/collection.svelte.ts instead performs
exactly one refetch of the current page per event.
-/
theorem c3_patch_reconciliation :
    ∀ (s : CollState) (r : Rec) (e : Event) (fo : FetchOutcome),
      ((Patch.handleEvent s ⟨.create, r⟩).1.data
          = .val (currentList s.data ++ [r])) ∧
      ((Patch.handleEvent s ⟨.update, r⟩).1.data
          = .val ((currentList s.data).map fun item =>
              if item.id = r.id then r else item)) ∧
      (∀ i : Nat,
        (Patch.applyEvent (currentList s.data) ⟨.update, r⟩)[i]?
          = ((currentList s.data)[i]?).map fun item =>
              if item.id = r.id then r else item) ∧
      ((∀ x ∈ currentList s.data, x.id ≠ r.id) →
        Patch.applyEvent (currentList s.data) ⟨.update, r⟩ = currentList s.data) ∧
      ((Patch.handleEvent s ⟨.delete, r⟩).1.data
          = .val ((currentList s.data).filter fun item => item.id != r.id)) ∧
      ((Patch.applyEvent (currentList s.data) ⟨.delete, r⟩).Sublist
          (currentList s.data)) ∧
      (∀ x : Rec, x ∈ Patch.applyEvent (currentList s.data) ⟨.delete, r⟩ ↔
          x ∈ currentList s.data ∧ x.id ≠ r.id) ∧
      ((∀ x ∈ currentList s.data, x.id ≠ r.id) →
        Patch.applyEvent (currentList s.data) ⟨.delete, r⟩ = currentList s.data) ∧
      ((Patch.handleEvent s e).1.page = s.page ∧
       (Patch.handleEvent s e).1.totalPages = s.totalPages ∧
       (Patch.handleEvent s e).1.totalItems = s.totalItems ∧
       (Patch.handleEvent s e).1.loading = s.loading ∧
       (Patch.handleEvent s e).1.error = s.error ∧
       (Patch.handleEvent s e).2 = 0) ∧
      ((Refetch.handleEvent s e fo).2 = 1 ∧
       (Refetch.handleEvent s e fo).1 = fetch_data s fo) := by
  intro s r e fo
  refine ⟨by simp [Patch.handleEvent, Patch.applyEvent], ?_, ?_, ?_, ?_, ?_, ?_, ?_, ?_, ?_⟩
  · simp [Patch.handleEvent, Patch.applyEvent]
  · intro i
    simp [Patch.applyEvent, List.getElem?_map]
  · exact applyEvent_update_unmatched (currentList s.data) r
  · simp [Patch.handleEvent, Patch.applyEvent]
  · exact List.filter_sublist (currentList s.data)
  · intro x
    simp only [Patch.applyEvent, List.mem_filter, bne_iff_ne, ne_eq]
  · exact applyEvent_delete_unmatched (currentList s.data) r
  · simp [Patch.handleEvent]
  · exact ⟨rfl, rfl⟩

/-- Witness for C3: unmatched update and delete events leave a concrete
one-record snapshot unchanged. -/
theorem c3_witness :
    Patch.applyEvent [rA] ⟨.update, rB⟩ = [rA] ∧
    Patch.applyEvent [rA] ⟨.delete, rB⟩ = [rA] := by
  have h := c3_patch_reconciliation ⟨true, .val [rA], false, none, 1, 1, 1⟩
    rB ⟨.create, rB⟩ (.ok [] 1 1)
  exact ⟨h.2.2.2.1 (by decide), h.2.2.2.2.2.2.2.1 (by decide)⟩

/--
C4 counterexample: the claim says a successful add on a non-listening
collection adapter appends the server record and performs no additional
fetch; on the adapter of src/lib/data/collection.svelte.ts with snapshot
holding record a, a successful add of record b performs one fetch and the
snapshot becomes the fetch response, not the appended list.
-/
theorem c4_counterexample :
    (Refetch.add ⟨false, .val [rA], false, none, 1, 1, 1⟩ (.ok rB)
        (.ok [rC] 1 1)).1.data = Snap.val [rC] ∧
    Snap.val [rC] ≠ Snap.val [rA, rB] ∧
    (Refetch.add ⟨false, .val [rA], false, none, 1, 1, 1⟩ (.ok rB)
        (.ok [rC] 1 1)).2.2 = 1 :=
  ⟨rfl, by decide, rfl⟩

/--
C4 (amended): on the patch-in-place collection adapter, a successful
add on a non-listening adapter with a loaded snapshot appends the
server record at the end and performs no fetch, and a listening adapter
performs no local append at all; the collection adapter of
src/lib/data/collection.svelte.ts instead performs exactly one refetch
after a successful non-listening add.
-/
theorem c4_add_variants :
    ∀ (s : CollState) (record : Rec) (fo : FetchOutcome),
      (s.listen = false → s.data.truthy = true →
        (Patch.add s (.ok record)).1.data
            = .val (currentList s.data ++ [record]) ∧
        (Patch.add s (.ok record)).2.1 = .ok record ∧
        (Patch.add s (.ok record)).2.2 = 0) ∧
      (s.listen = true →
        (Patch.add s (.ok record)).1.data = s.data ∧
        (Patch.add s (.ok record)).2.2 = 0) ∧
      (s.listen = false →
        (Refetch.add s (.ok record) fo).2.2 = 1 ∧
        (Refetch.add s (.ok record) fo).1.data = (fetch_data s fo).data) := by
  intro s record fo
  refine ⟨?_, ?_, ?_⟩
  · intro hl ht
    simp [Patch.add, hl, ht]
  · intro hl
    simp [Patch.add, hl]
  · intro hl
    cases fo <;> simp [Refetch.add, fetch_data, hl]

/-- Witness for C4: a non-listening patch-variant add onto snapshot
containing record a appends record b with no fetch. -/
theorem c4_witness :
    (Patch.add ⟨false, .val [rA], false, none, 1, 1, 1⟩ (.ok rB)).1.data
        = Snap.val [rA, rB] ∧
    (Patch.add ⟨false, .val [rA], false, none, 1, 1, 1⟩ (.ok rB)).2.1
        = .ok rB ∧
    (Patch.add ⟨false, .val [rA], false, none, 1, 1, 1⟩ (.ok rB)).2.2 = 0 :=
  (c4_add_variants ⟨false, .val [rA], false, none, 1, 1, 1⟩ rB (.ok [] 1 1)).1
    rfl rfl

/-! Helper lemmas about the data setter and the subscription
lifecycle. -/

theorem data_setter_fst (s : RecordState) (v : Snap Rec) :
    (data_setter s v).1 = { s with data := v } := by
  unfold data_setter
  by_cases hc : (s.autosaveEnabled && v.truthy) = true <;> simp [hc]

theorem subStep_fixed_fetchOnly (op : SubStep) :
    subStep ⟨false, false, 0, 0⟩ op = ⟨false, false, 0, 0⟩ := by
  cases op <;> rfl

theorem runSub_fetchOnly (ops : List SubStep) :
    runSub ⟨false, false, 0, 0⟩ ops = ⟨false, false, 0, 0⟩ := by
  induction ops with
  | nil => rfl
  | cons op ops ih =>
      simp only [runSub, List.foldl_cons, subStep_fixed_fetchOnly]
      exact ih

theorem seqStep_inv : ∀ (s : SubState) (op : SeqOp),
    SeqInv s → SeqInv (seqStep s op) := by
  intro s op h
  obtain ⟨hp, ha, hh⟩ := h
  cases op with
  | stopOp =>
      cases hb : s.handle with
      | true => simp [seqStep, subStep, hb, SeqInv, hp]
      | false =>
          simp [seqStep, subStep, hb, SeqInv, hp, ha]
          exact hh hb
  | startOp =>
      cases hl : s.listen with
      | false =>
          have hstep : seqStep s .startOp = s := by
            simp [seqStep, subStep, hl]
          rw [hstep]
          exact ⟨hp, ha, hh⟩
      | true =>
          cases hb : s.handle with
          | true =>
              have hstep : seqStep s .startOp = s := by
                simp [seqStep, subStep, hl, hb]
              rw [hstep]
              exact ⟨hp, ha, hh⟩
          | false =>
              have ha0 : s.active = 0 := hh hb
              simp [seqStep, subStep, hl, hb, SeqInv, hp, ha0]

/--
C7 counterexample: the claim says at most one subscription is active at
a time and a new one is never opened while one is already active; when
two start calls overlap before the first initial fetch resolves (the
handle guard of subscribe_to_data is only checked at entry, not in the
fetch continuation), the first completion opens a channel and the
second completion opens another while the first is active, leaving two
channels open.
-/
theorem c7_counterexample :
    (runSub ⟨true, false, 0, 0⟩ [.startCall, .startCall, .fetchDone]).active
        = 1 ∧
    (runSub ⟨true, false, 0, 0⟩
        [.startCall, .startCall, .fetchDone, .fetchDone]).active = 2 := by
  constructor <;> rfl

/--
C7 (amended): invoking start() after a subscription is active (the
unsubscribe handle is set) is a no-op, and when start()/stop()
invocations do not overlap (each subscribe initial fetch completes
before the next invocation) at most one subscription is ever active;
but overlapping start() invocations can each open a channel, so the
bound holds only for non-overlapping invocation sequences.
-/
theorem c7_subscription_lifecycle :
    (∀ s : SubState, s.handle = true → subStep s .startCall = s) ∧
    (∀ (s : SubState) (ops : List SeqOp), SeqInv s →
      SeqInv (runSeq s ops) ∧ (runSeq s ops).active ≤ 1) := by
  constructor
  · intro s h
    cases hl : s.listen <;> simp [subStep, hl, h]
  · intro s ops h
    have hrun : SeqInv (runSeq s ops) := by
      induction ops generalizing s with
      | nil => exact h
      | cons op ops ih =>
          simp only [runSeq, List.foldl_cons]
          exact ih (seqStep s op) (seqStep_inv s op h)
    exact ⟨hrun, hrun.2.1⟩

/-- Witness for C7: a start on a state whose handle is set is a no-op,
and a concrete non-overlapping start/stop/start sequence keeps at most
one channel active. -/
theorem c7_witness :
    subStep ⟨true, true, 0, 1⟩ .startCall = ⟨true, true, 0, 1⟩ ∧
    SeqInv (runSeq ⟨true, false, 0, 0⟩ [.startOp, .startOp, .stopOp, .startOp]) ∧
    (runSeq ⟨true, false, 0, 0⟩ [.startOp, .startOp, .stopOp, .startOp]).active
        ≤ 1 :=
  ⟨c7_subscription_lifecycle.1 ⟨true, true, 0, 1⟩ rfl,
   (c7_subscription_lifecycle.2 ⟨true, false, 0, 0⟩
      [.startOp, .startOp, .stopOp, .startOp] (by decide)).1,
   (c7_subscription_lifecycle.2 ⟨true, false, 0, 0⟩
      [.startOp, .startOp, .stopOp, .startOp] (by decide)).2⟩

/--
C6: `RecordState.save()` on a present snapshot issues exactly one
update whose payload is the user fields of the snapshot with the reserved
fields (id, created, updated, collectionId, collectionName) stripped,
returns the server record, and replaces the snapshot with the server
record exactly when the adapter is not listening (a fetch-only adapter
never opens a subscription, so replacement happens only with no live
subscription active); on an absent snapshot it returns none, issues no
call, and changes nothing.
-/
theorem c6_save_strips_and_replaces :
    ∀ (t : RecordState) (r record : Rec) (out : SaveOutcome),
      (t.data = .val r →
        (save t out).calls = [⟨r.id, r.fields⟩] ∧
        (save t (.ok record)).result = .ok (some record) ∧
        (t.listen = false → (save t (.ok record)).state.data = .val record) ∧
        (t.listen = true → (save t (.ok record)).state.data = t.data)) ∧
      (t.data.truthy = false →
        save t out
          = { state := t, result := .ok none, calls := [], scheduled := 0 }) ∧
      (∀ ops : List SubStep, runSub ⟨false, false, 0, 0⟩ ops
          = ⟨false, false, 0, 0⟩) := by
  intro t r record out
  refine ⟨?_, ?_, fun ops => runSub_fetchOnly ops⟩
  · intro hd
    refine ⟨?_, ?_, ?_, ?_⟩
    · cases out <;> simp [save, hd]
    · simp [save, hd]
    · intro hl
      simp [save, hd, hl, data_setter_fst]
    · intro hl
      simp [save, hd, hl]
  · intro ht
    cases hd : t.data with
    | undef => simp [save, hd]
    | nil => simp [save, hd]
    | val q => rw [hd] at ht; simp [Snap.truthy] at ht

/-- Witness for C6: a concrete non-listening save of record a strips
the reserved fields, returns the server record b and replaces the
snapshot with it; a concrete absent-snapshot save is a no-op. -/
theorem c6_witness :
    ((save
        { listen := false, autosaveEnabled := false, recordId := some "a",
          filterQuery := none, data := .val rA, loading := false, error := none }
        (.ok rB)).calls = [⟨"a", [("title", "one")]⟩] ∧
     (save
        { listen := false, autosaveEnabled := false, recordId := some "a",
          filterQuery := none, data := .val rA, loading := false, error := none }
        (.ok rB)).result = .ok (some rB) ∧
     (save
        { listen := false, autosaveEnabled := false, recordId := some "a",
          filterQuery := none, data := .val rA, loading := false, error := none }
        (.ok rB)).state.data = .val rB) ∧
    save
        { listen := false, autosaveEnabled := false, recordId := some "a",
          filterQuery := none, data := .nil, loading := false, error := none }
        (.ok rB)
      = { state := { listen := false, autosaveEnabled := false,
                     recordId := some "a", filterQuery := none, data := .nil,
                     loading := false, error := none },
          result := .ok none, calls := [], scheduled := 0 } := by
  have h := c6_save_strips_and_replaces
    { listen := false, autosaveEnabled := false, recordId := some "a",
      filterQuery := none, data := .val rA, loading := false, error := none }
    rA rB (.ok rB)
  have h2 := c6_save_strips_and_replaces
    { listen := false, autosaveEnabled := false, recordId := some "a",
      filterQuery := none, data := .nil, loading := false, error := none }
    rA rB (.ok rB)
  exact ⟨⟨(h.1 rfl).1, (h.1 rfl).2.1, (h.1 rfl).2.2.1 rfl⟩, h2.2.1 rfl⟩

/--
C2: with autosave enabled, assigning a truthy (non-empty) value to the
snapshot through the overridden data setter schedules exactly one
background save, the single update call of that save carries exactly the
user fields of the assigned record, `updateField` goes through the same
single scheduled save without any direct save call, and a failing
background save records the error in error state while the attached
catch handler keeps it from ever propagating to the assigner.
-/
theorem c2_autosave_exactly_one :
    ∀ (s : RecordState) (r record : Rec) (e : Err),
      s.autosaveEnabled = true →
      ((∀ v : Snap Rec, v.truthy = true → (data_setter s v).2 = 1) ∧
       (save (data_setter s (.val r)).1 (.ok record)).calls
          = [⟨r.id, r.fields⟩] ∧
       (s.data = .val r → ∀ (k v : String) (out : SaveOutcome),
         (updateField s k v out).scheduled = 1 ∧
         (updateField s k v out).calls = []) ∧
       ((autosave_complete (data_setter s (.val r)).1 (.fail e)).1.error
            = some e ∧
        (autosave_complete (data_setter s (.val r)).1 (.fail e)).2 = none)) := by
  intro s r record e hauto
  refine ⟨?_, ?_, ?_, ?_, ?_⟩
  · intro v hv
    simp [data_setter, hauto, hv]
  · rw [data_setter_fst]
    simp [save]
  · intro hd k v out
    simp [updateField, hd, hauto, data_setter, Snap.truthy]
  · rw [data_setter_fst]
    simp [autosave_complete, save]
  · rw [data_setter_fst]
    simp [autosave_complete, save, consoleError]

/-- Witness for C2 at a concrete autosave-enabled adapter: one
scheduled save per truthy assignment, the scheduled save of record a
carries exactly its user fields, updateField schedules one save with no
direct call, and a failing background save records the error and
escapes to nobody. -/
theorem c2_witness :
    ((data_setter
        { listen := true, autosaveEnabled := true, recordId := some "a",
          filterQuery := none, data := .val rA, loading := false, error := none }
        (.val rB)).2 = 1) ∧
    ((updateField
        { listen := true, autosaveEnabled := true, recordId := some "a",
          filterQuery := none, data := .val rA, loading := false, error := none }
        "title" "B" (.ok rB)).scheduled = 1 ∧
     (updateField
        { listen := true, autosaveEnabled := true, recordId := some "a",
          filterQuery := none, data := .val rA, loading := false, error := none }
        "title" "B" (.ok rB)).calls = []) ∧
    ((autosave_complete
        (data_setter
          { listen := true, autosaveEnabled := true, recordId := some "a",
            filterQuery := none, data := .val rA, loading := false, error := none }
          (.val rA)).1 (.fail "bad")).1.error = some "bad" ∧
     (autosave_complete
        (data_setter
          { listen := true, autosaveEnabled := true, recordId := some "a",
            filterQuery := none, data := .val rA, loading := false, error := none }
          (.val rA)).1 (.fail "bad")).2 = none) := by
  have h := c2_autosave_exactly_one
    { listen := true, autosaveEnabled := true, recordId := some "a",
      filterQuery := none, data := .val rA, loading := false, error := none }
    rA rB "bad" rfl
  exact ⟨h.1 (.val rB) rfl, h.2.2.1 rfl "title" "B" (.ok rB), h.2.2.2⟩

/--
C5 counterexample: the claim says every mutation failure, login
included, is captured into the error state of the adapter and re-thrown; a
concrete failing login re-throws, but the auth adapter state after
the failure is exactly the prior state with loading cleared - identical
for two different errors - so nothing about the failure is captured
anywhere in the adapter (the class has no error field).
-/
theorem c5_counterexample :
    (login ⟨Snap.nil, false⟩ (.error "bad")).2 = some "bad" ∧
    (login ⟨Snap.nil, false⟩ (.error "bad")).1 = ⟨Snap.nil, false⟩ ∧
    (login ⟨Snap.nil, false⟩ (.error "bad")).1
      = (login ⟨Snap.nil, false⟩ (.error "other")).1 :=
  ⟨rfl, rfl, rfl⟩

/--
C5 (amended): failures of save, add, update and remove (both collection
variants) are captured into the error state of the adapter and re-thrown to
the caller; a login failure is re-thrown with loading cleared but
captured nowhere (the auth adapter has no error state); fetch-path
failures are captured into error state and swallowed (the fetch
embeddings return no exception to the observer).
-/
theorem c5_mutation_vs_fetch_errors :
    ∀ (s : CollState) (t : RecordState) (u : UserState) (r : Rec)
      (id : String) (e : Err) (fo : FetchOutcome)
      (g2 : Except Err (List Rec)),
      ((Refetch.add s (.error e) fo).1.error = some e ∧
       (Refetch.add s (.error e) fo).2.1 = .error e) ∧
      ((Refetch.update s id (.error e) fo).1.error = some e ∧
       (Refetch.update s id (.error e) fo).2.1 = .error e) ∧
      ((Refetch.remove s id (.error e) fo).1.error = some e ∧
       (Refetch.remove s id (.error e) fo).2.1 = .error e) ∧
      ((Patch.add s (.error e)).1.error = some e ∧
       (Patch.add s (.error e)).2.1 = .error e) ∧
      ((Patch.update s id (.error e)).1.error = some e ∧
       (Patch.update s id (.error e)).2.1 = .error e) ∧
      ((Patch.remove s id (.error e)).1.error = some e ∧
       (Patch.remove s id (.error e)).2.1 = .error e) ∧
      (t.data = .val r →
        (save t (.fail e)).state.error = some e ∧
        (save t (.fail e)).result = .error e) ∧
      ((login u (.error e)).2 = some e ∧
       (login u (.error e)).1 = { u with loading := false }) ∧
      ((fetch_data s (.fail e)).error = some e) ∧
      (t.recordId.isSome = true →
        (rec_fetch_data t (.error e) g2).1.error = some e) := by
  intro s t u r id e fo g2
  refine ⟨⟨rfl, rfl⟩, ⟨rfl, rfl⟩, ⟨rfl, rfl⟩, ⟨rfl, rfl⟩, ⟨rfl, rfl⟩,
    ⟨rfl, rfl⟩, ?_, ⟨rfl, rfl⟩, rfl, ?_⟩
  · intro hd
    exact ⟨by simp [save, hd], by simp [save, hd]⟩
  · intro h
    cases hid : t.recordId with
    | none => rw [hid] at h; simp at h
    | some i => simp [rec_fetch_data, hid, data_setter_fst]

/-- Witness for C5 at concrete adapters: a failing collection add is
captured and re-thrown, a failing document save is captured and
re-thrown, a failing login is re-thrown, and a failing document fetch
is captured without being thrown. -/
theorem c5_witness :
    ((Refetch.add ⟨false, .val [rA], false, none, 1, 1, 1⟩ (.error "down")
        (.ok [] 1 0)).1.error = some "down" ∧
     (Refetch.add ⟨false, .val [rA], false, none, 1, 1, 1⟩ (.error "down")
        (.ok [] 1 0)).2.1 = .error "down") ∧
    ((save
        { listen := false, autosaveEnabled := false, recordId := some "a",
          filterQuery := none, data := .val rA, loading := false, error := none }
        (.fail "down")).state.error = some "down" ∧
     (save
        { listen := false, autosaveEnabled := false, recordId := some "a",
          filterQuery := none, data := .val rA, loading := false, error := none }
        (.fail "down")).result = .error "down") ∧
    (login ⟨Snap.nil, false⟩ (.error "down")).2 = some "down" ∧
    (rec_fetch_data
        { listen := false, autosaveEnabled := false, recordId := some "a",
          filterQuery := none, data := .val rA, loading := false, error := none }
        (.error "down") (.ok [])).1.error = some "down" := by
  have h := c5_mutation_vs_fetch_errors ⟨false, .val [rA], false, none, 1, 1, 1⟩
    { listen := false, autosaveEnabled := false, recordId := some "a",
      filterQuery := none, data := .val rA, loading := false, error := none }
    ⟨Snap.nil, false⟩ rA "x" "down" (.ok [] 1 0) (.ok [])
  exact ⟨h.1, h.2.2.2.2.2.2.1 rfl, h.2.2.2.2.2.2.2.1.1,
    h.2.2.2.2.2.2.2.2.2 rfl⟩

end Sveltebase
